import Mathlib

/-!
Carbon-footprint form helper (`static/script.js`).

A shallow embedding of the browser-side form helper: the quick estimate, the
submit and number-input validators, the inline error messages, the notifier,
the tooltips and the local persistence of the form.

Conventions of the embedding.

* The numbers of the estimator are doubles: every sum and product is rounded
  to the nearest double.  The number fields of the validator are only
  compared, so there `parseFloat` is represented by its result, an `Option ℚ`
  whose `none` is `NaN`.
* The document is represented by the parts the script reads and writes.
  Built-ins that parse text (`parseFloat`, `JSON.parse`, the selector engine on
  selectors outside the fragment modelled here) are parameters.
* Timers are pending one-shot callbacks that the environment fires later.
-/

namespace CarbonForm

/-! ## Run time -/

/-- An exception of the JavaScript run time. -/
inductive JSError where
  | syntaxError
  | typeError
  deriving DecidableEq

/-- How a call ends: it returns, or it throws. -/
inductive Completion where
  | returned
  | threw (error : JSError)
  deriving DecidableEq

/-! ## Numbers -/

/-- A JavaScript number: `NaN`, a finite double given by its exact value, or
an infinity.  The two zeros are not told apart. -/
inductive JSNumber where
  | nan
  | finite (q : ℚ)
  | infinite (positive : Bool)
  deriving DecidableEq

/-- The power `2 ^ e` for an integer `e`. -/
def twoPow (e : ℤ) : ℚ :=
  if 0 ≤ e then ((2 ^ e.toNat : ℕ) : ℚ) else 1 / ((2 ^ (-e).toNat : ℕ) : ℚ)

/-- Halvings of `n` until it is below 2, at most `fuel` of them. -/
def bitsBelow : Nat → Nat → Nat
  | 0, _ => 0
  | fuel + 1, n => if n < 2 then 0 else bitsBelow fuel (n / 2) + 1

/-- The integer part of the binary logarithm of a positive `n`; `n` halvings
are always enough. -/
def log2 (n : Nat) : Nat := bitsBelow n n

/-- The exponent `e` with `2 ^ e ≤ a < 2 ^ (e + 1)`, for a positive `a`. -/
def binade (a : ℚ) : ℤ :=
  let k : ℤ := (log2 a.num.natAbs : ℤ) - (log2 a.den : ℤ)
  if twoPow k ≤ a then k else k - 1

/-- The nearest integer, a tie going to the even one. -/
def roundHalfEven (x : ℚ) : ℤ :=
  let f := ⌊x⌋
  if x - f < 1 / 2 then f
  else if 1 / 2 < x - f then f + 1
  else if f % 2 = 0 then f
  else f + 1

/-- The double nearest to a real result (IEEE 754 binary64, round to nearest,
ties to even): 53 significant bits, exponent at least -1022 (below that the
spacing stays `2 ^ -1074`), and an infinity from `2 ^ 1024` on. -/
def roundDouble (q : ℚ) : JSNumber :=
  if q = 0 then .finite 0
  else
    let a := |q|
    let ulp := twoPow (max (binade a) (-1022) - 52)
    let r := (roundHalfEven (a / ulp) : ℚ) * ulp
    if twoPow 1024 ≤ r then .infinite (decide (0 < q))
    else .finite (if 0 < q then r else -r)

/-- The sum `x + y` of two numbers. -/
def JSNumber.add : JSNumber → JSNumber → JSNumber
  | .nan, _ => .nan
  | _, .nan => .nan
  | .infinite p, .infinite q => if p = q then .infinite p else .nan
  | .infinite p, .finite _ => .infinite p
  | .finite _, .infinite q => .infinite q
  | .finite a, .finite b => roundDouble (a + b)

/-- The product `x * y` of two numbers. -/
def JSNumber.mul : JSNumber → JSNumber → JSNumber
  | .nan, _ => .nan
  | _, .nan => .nan
  | .infinite p, .infinite q => .infinite (p == q)
  | .infinite p, .finite b => if b = 0 then .nan else .infinite (p == decide (0 < b))
  | .finite a, .infinite q => if a = 0 then .nan else .infinite (q == decide (0 < a))
  | .finite a, .finite b => roundDouble (a * b)

/-- The comparison `x < y`, false when either side is `NaN`. -/
def JSNumber.lt : JSNumber → JSNumber → Bool
  | .nan, _ => false
  | _, .nan => false
  | .finite a, .finite b => decide (a < b)
  | .finite _, .infinite q => q
  | .infinite p, .finite _ => !p
  | .infinite p, .infinite q => !p && q

/-- Models `Math.min(x, y)`: `NaN` when either argument is. -/
def JSNumber.min (x y : JSNumber) : JSNumber :=
  match x, y with
  | .nan, _ => .nan
  | _, .nan => .nan
  | _, _ => if y.lt x then y else x

/-- Models `Math.max(x, y)`: `NaN` when either argument is. -/
def JSNumber.max (x y : JSNumber) : JSNumber :=
  match x, y with
  | .nan, _ => .nan
  | _, .nan => .nan
  | _, _ => if x.lt y then y else x

/-! ## Estimator -/

/-- Property names that every object literal inherits from `Object.prototype`.
A lookup `table[key]` with one of these keys yields the inherited function (or,
for `__proto__`, the prototype object) instead of `undefined`. -/
def objectPrototypeKeys : List String :=
  ["constructor", "hasOwnProperty", "isPrototypeOf", "propertyIsEnumerable",
   "toLocaleString", "toString", "valueOf", "__proto__", "__defineGetter__",
   "__defineSetter__", "__lookupGetter__", "__lookupSetter__"]

/-- Outcome of the property read `table[key]` on an object literal whose own
properties are numbers. -/
inductive Lookup where
  | own (q : ℚ)
  | inherited
  | undefined
  deriving DecidableEq

/-- Value held by the variable `estimate`: a number, or the non-numeric string
that `number + object` produces by concatenation. -/
inductive Estimate where
  | number (x : JSNumber)
  | text
  deriving DecidableEq

/-- The element `#quickEstimate`, as far as `updateEstimate` writes it. -/
structure Display where
  textContent : String
  color : String
  deriving DecidableEq

/-- The object literal `airTravelFactors` of `updateEstimate`, read at `key`. -/
def airTravelFactors (key : String) : Lookup :=
  if key = "never" then .own (-200)
  else if key = "rarely" then .own 0
  else if key = "frequently" then .own 500
  else if key = "very frequently" then .own 1000
  else if key ∈ objectPrototypeKeys then .inherited
  else .undefined

/-- The statement `estimate += table[key] || 0` for a numeric `estimate`: a
falsy read (`undefined` or `0`) adds `0`, a number is added, and an inherited
function or object turns the sum into a string. -/
def addLookup (estimate : JSNumber) : Lookup → Estimate
  | .own q => .number (estimate.add (.finite (if q = 0 then 0 else q)))
  | .inherited => .text
  | .undefined => .number (estimate.add (.finite 0))

/-- The comparison `estimate < bound`; a non-numeric string converts to `NaN`
and compares false. -/
def Estimate.lt : Estimate → ℚ → Bool
  | .number x, bound => x.lt (.finite bound)
  | .text, _ => false

/-- Models `getColorForEstimate(estimate)`. -/
def getColorForEstimate (estimate : Estimate) : String :=
  if estimate.lt 1500 then "#4CAF50"
  else if estimate.lt 2500 then "#FF9800"
  else if estimate.lt 3500 then "#FF5722"
  else "#F44336"

/-- Models `x.toFixed(0)` for a finite `x` as an integer: the nearest integer,
a tie going away from zero. -/
def toFixed0 (x : ℚ) : ℤ :=
  if x < 0 then -⌊-x + 1 / 2⌋ else ⌊x + 1 / 2⌋

/-- Models `Math.max(500, Math.min(estimate, 5000)).toFixed(0)`.  A string
estimate converts to `NaN`, which `Math.min` and `Math.max` hand on; the
clamped number is otherwise finite and between 500 and 5000, where `toFixed`
writes the digits of the rounded number. -/
def shownText : Estimate → String
  | .text => "NaN"
  | .number x =>
    match (JSNumber.finite 500).max (x.min (.finite 5000)) with
    | .nan => "NaN"
    | .finite q => toString (toFixed0 q)
    | .infinite positive => if positive then "Infinity" else "-Infinity"

/-- The value of `estimate` when `updateEstimate` reaches its display step.
`transport` and `diet` are the `value` read from the two fields (`none` for
`undefined`), `distance` is the result of `parseFloat` before `|| 0`, and
`airTravel` is the property key made of the fourth value.  The literal `0.2`
is the double nearest to one fifth. -/
def rawEstimate (transport diet : Option String) (distance : JSNumber) (airTravel : String) :
    Estimate :=
  let estimate : JSNumber := .finite 2000
  let distance : JSNumber := match distance with
    | .nan => .finite 0
    | .finite d => if d = 0 then .finite 0 else .finite d
    | .infinite positive => .infinite positive
  let estimate :=
    if transport = some "walk/bicycle" then estimate.add (.finite (-500))
    else if transport = some "public" then estimate.add (.finite (-300))
    else if transport = some "private" then estimate.add (distance.mul (roundDouble (2 / 10)))
    else estimate
  let estimate :=
    if diet = some "vegan" then estimate.add (.finite (-300))
    else if diet = some "vegetarian" then estimate.add (.finite (-200))
    else if diet = some "pescatarian" then estimate.add (.finite (-100))
    else estimate
  addLookup estimate (airTravelFactors airTravel)

/-- The object literal `tooltips` of `getTooltipText`: the ids of the fields,
as the `for` attributes of their labels give them, with the help texts. -/
def tooltips : List (String × String) :=
  [("Diet", "Your dietary choices significantly impact carbon emissions."),
   ("Transport", "Primary mode of transportation affects emissions greatly."),
   ("Vehicle Monthly Distance Km", "Distance traveled by vehicle per month."),
   ("Frequency of Traveling by Air", "Air travel has high carbon impact."),
   ("Heating Energy Source", "Energy source used for home heating."),
   ("Energy efficiency", "How energy efficient are your appliances?"),
   ("Recycling", "Recycling helps reduce waste-related emissions."),
   ("Monthly Grocery Bill", "Higher spending often correlates with higher emissions.")]

/-- An element under the form: its tag name in lower case, its `id` (empty
without one), its `value` property (`none` for `undefined`) and the tag names
and ids of its ancestors, the outermost first. -/
structure Node where
  tagName : String
  id : String
  value : Option String
  ancestors : List (String × String)
  deriving DecidableEq

/-- A simple selector: `#name` or a type selector. -/
inductive SimpleSelector where
  | id (name : String)
  | type (name : String)
  deriving DecidableEq

/-- The pieces of a text between its blanks. -/
def splitBlanks : List Char → List (List Char)
  | [] => [[]]
  | c :: rest =>
    if c = ' ' then [] :: splitBlanks rest
    else
      match splitBlanks rest with
      | piece :: pieces => (c :: piece) :: pieces
      | [] => [[c]]

/-- A selector text of the kind the script passes, read as CSS reads it: the
simple selectors `#name` and `type` separated by blanks, a blank being the
descendant combinator.  Type selectors match tag names without regard to
case. -/
def parseSelector (selector : String) : List SimpleSelector :=
  ((splitBlanks selector.data).filter (fun piece => !piece.isEmpty)).map fun piece =>
    match piece with
    | '#' :: name => .id (String.mk name)
    | name => .type (String.mk (name.map Char.toLower))

/-- Whether an element with this tag name and id matches a simple selector. -/
def SimpleSelector.matches (selector : SimpleSelector) (element : String × String) : Bool :=
  match selector with
  | .id name => element.2 = name && name ≠ ""
  | .type name => element.1 = name

/-- Whether the selectors, outermost first, are matched in this order by some
of the ancestors, outermost first. -/
def matchAncestors : List SimpleSelector → List (String × String) → Bool
  | [], _ => true
  | _ :: _, [] => false
  | selector :: selectors, ancestor :: ancestors =>
    if selector.matches ancestor then matchAncestors selectors ancestors
    else matchAncestors (selector :: selectors) ancestors

/-- Models `form.querySelector(selector)`: the first element under the form, in
document order, that matches the last simple selector and has ancestors for
the ones before it; `none` for `null`. -/
def querySelector (form : List Node) (selector : String) : Option Node :=
  match (parseSelector selector).reverse with
  | [] => none
  | last :: before =>
    form.find? fun node =>
      last.matches (node.tagName, node.id) && matchAncestors before.reverse node.ancestors

/-- Models `updateEstimate()`.  `parseFloat` is the built-in;
`estimateElement` is `none` when the page has no `#quickEstimate`, and `form`
lists the elements under the form in document order.  The result is the
display element after the call and the way the call ended: reading `.value` of
a `null` selector result throws a `TypeError` before anything is written. -/
def updateEstimate (parseFloat : String → JSNumber) (estimateElement : Option Display)
    (form : List Node) : Option Display × Completion :=
  match estimateElement with
  | none => (none, .returned)
  | some element =>
    match querySelector form "#Transport" with
    | none => (some element, .threw .typeError)
    | some transportField =>
      match querySelector form "#Diet" with
      | none => (some element, .threw .typeError)
      | some dietField =>
        match querySelector form "#Vehicle Monthly Distance Km" with
        | none => (some element, .threw .typeError)
        | some distanceField =>
          match querySelector form "#Frequency of Traveling by Air" with
          | none => (some element, .threw .typeError)
          | some airField =>
            let estimate := rawEstimate transportField.value dietField.value
              (parseFloat (distanceField.value.getD "undefined"))
              (airField.value.getD "undefined")
            (some { textContent := shownText estimate, color := getColorForEstimate estimate },
              .returned)

/-- A form as the script's own field ids describe it: four controls, each in
a `div` of the form `#carbonForm`, carrying the ids that the `tooltips` table
names, with the given values. -/
def formWithTooltipIds (transport diet distance airTravel : String) : List Node :=
  [{ tagName := "select", id := "Transport", value := some transport,
     ancestors := [("html", ""), ("body", ""), ("form", "carbonForm"), ("div", "")] },
   { tagName := "select", id := "Diet", value := some diet,
     ancestors := [("html", ""), ("body", ""), ("form", "carbonForm"), ("div", "")] },
   { tagName := "input", id := "Vehicle Monthly Distance Km", value := some distance,
     ancestors := [("html", ""), ("body", ""), ("form", "carbonForm"), ("div", "")] },
   { tagName := "select", id := "Frequency of Traveling by Air", value := some airTravel,
     ancestors := [("html", ""), ("body", ""), ("form", "carbonForm"), ("div", "")] }]

/-! ## Inline error messages -/

/-- An element of class `error-message`, with the properties `showError` sets. -/
structure ErrorElement where
  textContent : String
  color : String
  fontSize : String
  marginTop : String
  deriving DecidableEq

/-- The `.error-message` elements of the document: for each parent element of
a field (parents are numbered) the ones lying under it, in document order.
Parents of different fields are either the same element or disjoint subtrees. -/
abbrev ErrorMessages := Nat → List ErrorElement

/-- Models `showError(field, message)`; `parentElement` is
`field.parentElement`.  The first `.error-message` under the parent is reused,
and one is created and appended only when there is none. -/
def showError (doc : ErrorMessages) (parentElement : Nat) (message : String) :
    ErrorMessages :=
  let style (errorElement : ErrorElement) : ErrorElement :=
    { errorElement with
      textContent := message, color := "#ff4444", fontSize := "0.85rem", marginTop := "5px" }
  match doc parentElement with
  | [] => Function.update doc parentElement [style ⟨"", "", "", ""⟩]
  | errorElement :: others => Function.update doc parentElement (style errorElement :: others)

/-- Models `hideError(field)`: removes the first `.error-message` under the
parent, if there is one. -/
def hideError (doc : ErrorMessages) (parentElement : Nat) : ErrorMessages :=
  match doc parentElement with
  | [] => doc
  | _ :: others => Function.update doc parentElement others

/-- The text of the error message attached to a field: that of the first
`.error-message` under its parent. -/
def errorText (doc : ErrorMessages) (parentElement : Nat) : Option String :=
  (doc parentElement).head?.map ErrorElement.textContent

/-! ## Notifier -/

/-- A node that the HTML parser makes of a message assigned through
`innerHTML`: a run of text, or an element with its `class` attribute and its
text.  A message is represented by the nodes its markup denotes. -/
inductive Inline where
  | text (content : String)
  | element (className : String) (content : String)
  deriving DecidableEq

/-- The pieces of a text between its white space. -/
def splitSpaces : List Char → List (List Char)
  | [] => [[]]
  | c :: rest =>
    if c = ' ' ∨ c = '\t' ∨ c = '\n' ∨ c = '\x0c' ∨ c = '\r' then [] :: splitSpaces rest
    else
      match splitSpaces rest with
      | piece :: pieces => (c :: piece) :: pieces
      | [] => [[c]]

/-- Whether a `class` attribute holds the class `notification`, which is what
the selector `.notification` asks for. -/
def isNotificationClass (className : String) : Bool :=
  "notification".data ∈ splitSpaces className.data

/-- An element of class `notification` that lies in no other such element.
`id` is the identity of the element, by which its dismiss button and its
expiry timer refer to it; `message` is what its `span` holds. -/
structure Notification where
  id : Nat
  className : String
  message : List Inline
  background : String
  deriving DecidableEq

/-- The elements of class `notification` that a notification brings into the
document: itself and those among the elements of its message. -/
def Notification.elements (n : Notification) : Nat :=
  1 + (n.message.filter fun node =>
    match node with
    | .element className _ => isNotificationClass className
    | .text _ => false).length

/-- The notifier's part of the page: the outermost `.notification` elements of
the document in document order, the pending 5000 ms timers (each holds the
notification it was created for) and the identity of the next element. -/
structure Notifier where
  present : List Notification
  timers : List Nat
  nextId : Nat
  deriving DecidableEq

/-- The number of elements in the document that `.notification` selects. -/
def Notifier.count (doc : Notifier) : Nat :=
  (doc.present.map Notification.elements).sum

/-- The value assigned to `style.background`: `colors[type] || colors.info`.
An inherited property read yields a function, which is no colour, so the
assignment leaves the background empty. -/
def notificationBackground (type : String) : String :=
  if type = "success" then "#4CAF50"
  else if type = "error" then "#ff4444"
  else if type = "info" then "#2196F3"
  else if type = "warning" then "#ff9800"
  else if type ∈ objectPrototypeKeys then ""
  else "#2196F3"

/-- Models `showNotification(message, type)`; `type` is `none` when the
argument is omitted and then defaults to `info`.  The first element that
`.notification` selects is removed with all it holds, the new notification is
appended to the body with the message parsed into it, and its expiry timer is
set. -/
def showNotification (doc : Notifier) (message : List Inline) (type : Option String) :
    Notifier :=
  let type := type.getD "info"
  let remaining := doc.present.drop 1
  let notification : Notification :=
    { id := doc.nextId
      className := "notification notification-" ++ type
      message := message
      background := notificationBackground type }
  { present := remaining ++ [notification]
    timers := doc.timers ++ [doc.nextId]
    nextId := doc.nextId + 1 }

/-- The dismiss button of the notification `id`: `this.parentElement.remove()`.
A notification outside the document has no button to press. -/
def dismissNotification (doc : Notifier) (id : Nat) : Notifier :=
  { doc with present := doc.present.filter (fun n => n.id != id) }

/-- The expiry timer of the notification `id` fires: the notification is
removed when it still has a parent.  Nothing happens for a timer that is not
pending. -/
def expireNotification (doc : Notifier) (id : Nat) : Notifier :=
  if id ∈ doc.timers then
    { doc with
      present := doc.present.filter (fun n => n.id != id)
      timers := doc.timers.erase id }
  else doc

/-! ## Validator -/

/-- The characters `String.prototype.trim` strips: ECMAScript white space and
line terminators. -/
def isTrimmed (c : Char) : Bool :=
  c.toNat ∈ [0x09, 0x0A, 0x0B, 0x0C, 0x0D, 0x20, 0xA0, 0x1680, 0x2000, 0x2001, 0x2002,
    0x2003, 0x2004, 0x2005, 0x2006, 0x2007, 0x2008, 0x2009, 0x200A, 0x2028, 0x2029,
    0x202F, 0x205F, 0x3000, 0xFEFF]

/-- Models `s.trim()`. -/
def jsTrim (s : String) : String :=
  String.mk (((s.data.dropWhile isTrimmed).reverse.dropWhile isTrimmed).reverse)

/-- A field of the form, as the submit handler sees it. -/
structure Field where
  value : String
  required : Bool
  parentElement : Nat
  borderColor : String
  deriving DecidableEq

/-- The `forEach` of the submit handler over the fields in document order
(those without `required` are not selected and stay as they are), threading
`isValid` and the error messages. -/
def validateFields : List Field → Bool → ErrorMessages → List Field × Bool × ErrorMessages
  | [], isValid, doc => ([], isValid, doc)
  | field :: rest, isValid, doc =>
    if field.required then
      if jsTrim field.value = "" then
        let r := validateFields rest false
          (showError doc field.parentElement "This field is required")
        ({ field with borderColor := "#ff4444" } :: r.1, r.2)
      else
        let r := validateFields rest isValid (hideError doc field.parentElement)
        ({ field with borderColor := "#4CAF50" } :: r.1, r.2)
    else
      let r := validateFields rest isValid doc
      (field :: r.1, r.2)

/-- The page as the submit handler reads and writes it. -/
structure Page where
  fields : List Field
  errors : ErrorMessages
  notifier : Notifier

/-- The validating `submit` listener.  The second component tells whether
`e.preventDefault()` was called. -/
def submitHandler (page : Page) : Page × Bool :=
  let r := validateFields page.fields true page.errors
  if !r.2.1 then
    ({ fields := r.1, errors := r.2.2,
       notifier := showNotification page.notifier [.text "Please fill in all required fields"]
         (some "error") }, true)
  else
    ({ fields := r.1, errors := r.2.2, notifier := page.notifier }, false)

/-- A field of type `number` as its `input` listener sees it: `min`, `max` and
`value` are `parseFloat(this.min)`, `parseFloat(this.max)` and
`parseFloat(this.value)`; assigning a number to `this.value` makes the text of
the field denote that number. -/
structure NumberInput where
  min : Option ℚ
  max : Option ℚ
  value : Option ℚ
  parentElement : Nat
  borderColor : String
  deriving DecidableEq

/-- The comparison `a < b` of two numbers, false when either is `NaN`. -/
def jsLt : Option ℚ → Option ℚ → Bool
  | some a, some b => decide (a < b)
  | _, _ => false

/-- The text of a number inside a template literal; `numberToString` is the
conversion of a finite number. -/
def render (numberToString : ℚ → String) : Option ℚ → String
  | some q => numberToString q
  | none => "NaN"

/-- The `input` listener of a number field. -/
def numberInputHandler (numberToString : ℚ → String) (doc : ErrorMessages)
    (input : NumberInput) : NumberInput × ErrorMessages :=
  let min := input.min
  let max := input.max
  let value := input.value
  if jsLt value min then
    ({ input with value := min },
      showError doc input.parentElement ("Minimum value is " ++ render numberToString min))
  else if jsLt max value then
    ({ input with value := max },
      showError doc input.parentElement ("Maximum value is " ++ render numberToString max))
  else
    ({ input with borderColor := "#4CAF50" }, hideError doc input.parentElement)

/-! ## Tooltips -/

/-- An element of class `tooltip`; `id` is the identity of the element, by
which its removal timer refers to it. -/
structure Tooltip where
  id : Nat
  textContent : String
  opacity : String
  deriving DecidableEq

/-- A label: its `position` and `cursor` styles, the text closed over by the
listeners that `addTooltip` registered (`none` without listeners), the
`.tooltip` elements under it in document order, the pending 300 ms timers (each
holds the tooltip it is to remove) and the identity of the next element. -/
structure Label where
  position : String
  cursor : String
  listener : Option String
  tooltips : List Tooltip
  timers : List Nat
  nextId : Nat
  deriving DecidableEq

/-- Models `addTooltip(element, text)`. -/
def addTooltip (element : Label) (text : String) : Label :=
  { element with position := "relative", cursor := "help", listener := some text }

/-- The `mouseenter` listener: a new tooltip is created and appended, then
made opaque. -/
def mouseenter (element : Label) : Label :=
  match element.listener with
  | none => element
  | some text =>
    { element with
      tooltips := element.tooltips ++ [{ id := element.nextId, textContent := text, opacity := "1" }]
      nextId := element.nextId + 1 }

/-- The `mouseleave` listener: the first tooltip under the label is faded and
a timer is set to remove that element. -/
def mouseleave (element : Label) : Label :=
  match element.listener with
  | none => element
  | some _ =>
    match element.tooltips with
    | [] => element
    | tooltip :: others =>
      { element with
        tooltips := { tooltip with opacity := "0" } :: others
        timers := element.timers ++ [tooltip.id] }

/-- A pending removal timer fires: `tooltip.remove()` for the tooltip it holds.
Nothing happens for a timer that is not pending. -/
def removalTimer (element : Label) (id : Nat) : Label :=
  if id ∈ element.timers then
    { element with
      tooltips := element.tooltips.filter (fun t => t.id != id)
      timers := element.timers.erase id }
  else element

/-- What can happen to a label with a tooltip. -/
inductive LabelEvent where
  | enter
  | leave
  | timer (id : Nat)
  deriving DecidableEq

/-- One event on a label. -/
def Label.step (element : Label) : LabelEvent → Label
  | .enter => mouseenter element
  | .leave => mouseleave element
  | .timer id => removalTimer element id

/-- A sequence of events on a label, in order. -/
def Label.run (element : Label) (events : List LabelEvent) : Label :=
  events.foldl Label.step element

/-! ## Persistence -/

/-- The `type` of an element under the form, as far as `FormData` and
`loadSavedForm` tell it apart: a checkbox, a radio button, a button (submit,
reset, image or plain) or a control that holds a text, whose `value` takes
any string assigned to it. -/
inductive InputType where
  | checkbox
  | radio
  | button
  | other
  deriving DecidableEq

/-- An element under the form: its `name` attribute (`none` without one), its
type, its `value`, whether it is checked and whether it is disabled. -/
structure Element where
  name : Option String
  type : InputType
  value : String
  checked : Bool
  disabled : Bool
  deriving DecidableEq

/-- The entry of one control in `new FormData(form)`: none for a control that
is disabled, is a button, has no name or an empty one, or is a checkbox or
radio button that is not checked. -/
def formEntry (element : Element) : Option (String × String) :=
  match element.name with
  | none => none
  | some name =>
    if name = "" ∨ element.disabled then none
    else
      match element.type with
      | .button => none
      | .other => some (name, element.value)
      | _ => if element.checked then some (name, element.value) else none

/-- The entries of `new FormData(form)`, in document order. -/
def formEntries (form : List Element) : List (String × String) :=
  form.filterMap formEntry

/-- Models `formData.getAll(key)`. -/
def getAll (entries : List (String × String)) (key : String) : List String :=
  (entries.filter (fun entry => entry.1 = key)).map (fun entry => entry.2)

/-- A value of the saved object: a string or an array of strings. -/
inductive SavedValue where
  | scalar (value : String)
  | list (values : List String)
  deriving DecidableEq

/-- The saved object: its own properties in the order of their creation. -/
abbrev SavedData := List (String × SavedValue)

/-- The creation or update of the own property `key`. -/
def setProperty : SavedData → String → SavedValue → SavedData
  | [], key, value => [(key, value)]
  | (k, v) :: rest, key, value =>
    if k = key then (k, value) :: rest else (k, v) :: setProperty rest key value

/-- The assignment `data[key] = value` on an object literal.  The key
`__proto__` reaches the setter inherited from `Object.prototype`, which creates
no own property. -/
def assignProperty (data : SavedData) (key : String) (value : SavedValue) : SavedData :=
  if key = "__proto__" then data else setProperty data key value

/-- The number that a property key denotes when it is an array index: decimal
digits without a leading zero, below `2 ^ 32 - 1`. -/
def arrayIndex (key : String) : Option Nat :=
  let digits := key.data
  if digits.isEmpty ∨ ¬ digits.all Char.isDigit then none
  else if digits.head? = some '0' ∧ 1 < digits.length then none
  else
    let n := digits.foldl (fun n c => 10 * n + (c.toNat - '0'.toNat)) 0
    if n < 4294967295 then some n else none

/-- Insertion into a list that ascends by index. -/
def insertIndexed (item : Nat × String × SavedValue) :
    List (Nat × String × SavedValue) → List (Nat × String × SavedValue)
  | [] => [item]
  | first :: rest =>
    if item.1 ≤ first.1 then item :: first :: rest else first :: insertIndexed item rest

/-- The own properties in the order in which `Object.keys` and
`JSON.stringify` visit them: the array indices ascending, then the other keys
in the order of their creation. -/
def orderedProperties (data : SavedData) : SavedData :=
  ((data.filterMap fun property =>
      (arrayIndex property.1).map fun n => (n, property)).foldr insertIndexed []).map
    (fun item => item.2)
  ++ data.filter fun property => (arrayIndex property.1).isNone

/-- The loop of `autoSaveForm` over the entries. -/
def collectData (entries : List (String × String)) : SavedData :=
  entries.foldl
    (fun data entry =>
      if (getAll entries entry.1).length > 1 then
        assignProperty data entry.1 (.list (getAll entries entry.1))
      else
        assignProperty data entry.1 (.scalar entry.2))
    []

/-- Models `autoSaveForm()`: the text stored under `carbonFormData`.
`stringify` is `JSON.stringify`. -/
def autoSaveForm (stringify : SavedData → String) (form : List Element) : Option String :=
  some (stringify (collectData (formEntries form)))

/-- The body of the `forEach` callback of `loadSavedForm` for the element the
selector found.  The first item of an empty array is `undefined`, which the
assignment to `value` turns into the text `undefined`. -/
def restoreElement (element : Element) (value : SavedValue) : Element :=
  match element.type with
  | .checkbox | .radio =>
    { element with
      checked := match value with
        | .list values => values.contains element.value
        | .scalar s => s == element.value }
  | _ =>
    { element with
      value := match value with
        | .list values => values.headD "undefined"
        | .scalar s => s }

/-- Checking a radio button unchecks the other radio buttons of its group,
those of the same non-empty name.  `position` counts the elements passed. -/
def uncheckOthers (group : Option String) (keep : Nat) :
    List Element → Nat → List Element
  | [], _ => []
  | element :: rest, position =>
    (if position ≠ keep ∧ element.type = .radio ∧ element.name = group
        ∧ group ≠ none ∧ group ≠ some "" then
      { element with checked := false }
    else element) :: uncheckOthers group keep rest (position + 1)

/-- The write of the callback to the element at `index`. -/
def writeAt (form : List Element) (index : Nat) (value : SavedValue) : List Element :=
  match form.get? index with
  | none => form
  | some element =>
    let restored := restoreElement element value
    if restored.type = .radio ∧ restored.checked then
      uncheckOthers restored.name index (form.set index restored) 0
    else form.set index restored

/-- A key that stands for itself inside the quotes of `[name="..."]`: it holds
no double quote, no backslash, no line break and no null character. -/
def plainKey (key : String) : Bool :=
  key.data.all fun c => c ≠ '"' ∧ c ≠ '\\' ∧ c ≠ '\n' ∧ c ≠ '\r' ∧ c ≠ '\x0c' ∧ c ≠ '\x00'

/-- The position of the first element whose `name` attribute is `key`. -/
def firstNamed : List Element → String → Option Nat
  | [], _ => none
  | element :: rest, key =>
    if element.name = some key then some 0 else (firstNamed rest key).map (· + 1)

/-- Models `form.querySelector('[name="' + key + '"]')`, the key spliced into
the selector as it is.  For a plain key the selector asks for the `name`
attribute `key` and finds the first such element (`none` for `null`).  For any
other key the text is whatever CSS makes of it, an invalid selector (a
`SyntaxError`) or a selector for other elements: that is left to `css`, the
selector engine, which is given the text and the form. -/
def queryByName (css : String → List Element → Except JSError (Option Nat))
    (form : List Element) (key : String) : Except JSError (Option Nat) :=
  if plainKey key then .ok (firstNamed form key)
  else css ("[name=\"" ++ key ++ "\"]") form

/-- The `forEach` of `loadSavedForm` over the keys; an exception ends it with
the writes made so far. -/
def restoreAll (css : String → List Element → Except JSError (Option Nat)) :
    SavedData → List Element → List Element × Completion
  | [], form => (form, .returned)
  | (key, value) :: rest, form =>
    match queryByName css form key with
    | .error e => (form, .threw e)
    | .ok none => restoreAll css rest form
    | .ok (some index) => restoreAll css rest (writeAt form index value)

/-- Models `loadSavedForm()`.  `savedData` is
`localStorage.getItem('carbonFormData')` (`none` for `null`), `parse` is
`JSON.parse` and `css` the selector engine.  The result is the form after the
call and the way the call ended. -/
def loadSavedForm (parse : String → Except JSError SavedData)
    (css : String → List Element → Except JSError (Option Nat))
    (savedData : Option String) (form : List Element) : List Element × Completion :=
  match savedData with
  | none => (form, .returned)
  | some text =>
    if text = "" then (form, .returned)
    else
      match parse text with
      | .error e => (form, .threw e)
      | .ok data => restoreAll css (orderedProperties data) form

/-! ### JSON texts of the saved object -/

/-- Two hexadecimal digits of a number below 256. -/
def hexByte (n : Nat) : List Char :=
  [Nat.digitChar (n / 16), Nat.digitChar (n % 16)]

/-- The text of one character inside a JSON string, as `JSON.stringify`
writes it. -/
def escapeChar (c : Char) : List Char :=
  if c = '"' then ['\\', '"']
  else if c = '\\' then ['\\', '\\']
  else if c = '\x08' then ['\\', 'b']
  else if c = '\x0c' then ['\\', 'f']
  else if c = '\n' then ['\\', 'n']
  else if c = '\r' then ['\\', 'r']
  else if c = '\t' then ['\\', 't']
  else if c.toNat < 0x20 then ['\\', 'u', '0', '0'] ++ hexByte c.toNat
  else [c]

/-- A quoted JSON string. -/
def quote (s : String) : List Char :=
  ['"'] ++ (s.data.map escapeChar).flatten ++ ['"']

/-- The items of an array or object, separated by commas. -/
def commaSeparated : List (List Char) → List Char
  | [] => []
  | [item] => item
  | item :: rest => item ++ [','] ++ commaSeparated rest

/-- Models `JSON.stringify(data)` for the saved object. -/
def jsonStringify (data : SavedData) : String :=
  String.mk (['\x7b'] ++ commaSeparated ((orderedProperties data).map fun property =>
    quote property.1 ++ [':'] ++
      (match property.2 with
        | .scalar s => quote s
        | .list values => ['['] ++ commaSeparated (values.map quote) ++ [']'])) ++ ['\x7d'])

/-- What the string being read is for. -/
inductive StringRole where
  | key
  | scalar (key : String)
  | item (key : String) (items : List String)
  deriving DecidableEq

/-- Where the reader of a JSON text stands. -/
inductive ParseState where
  | start
  | objectOpen
  | nextKey
  | afterKey (key : String)
  | value (key : String)
  | arrayOpen (key : String)
  | nextItem (key : String) (items : List String)
  | afterItem (key : String) (items : List String)
  | afterValue
  | done
  | chars (role : StringRole) (acc : List Char)
  | escape (role : StringRole) (acc : List Char)
  | hex (role : StringRole) (acc : List Char) (digits : List Nat)
  | failed
  deriving DecidableEq

/-- JSON white space. -/
def isJsonSpace (c : Char) : Bool :=
  c = ' ' || c = '\t' || c = '\n' || c = '\r'

/-- The value of a hexadecimal digit. -/
def hexValue (c : Char) : Option Nat :=
  if '0' ≤ c ∧ c ≤ '9' then some (c.toNat - '0'.toNat)
  else if 'a' ≤ c ∧ c ≤ 'f' then some (c.toNat - 'a'.toNat + 10)
  else if 'A' ≤ c ∧ c ≤ 'F' then some (c.toNat - 'A'.toNat + 10)
  else none

/-- The closing quote of a string. -/
def finishString (role : StringRole) (acc : List Char) (data : SavedData) :
    ParseState × SavedData :=
  match role with
  | .key => (.afterKey (String.mk acc), data)
  | .scalar key => (.afterValue, setProperty data key (.scalar (String.mk acc)))
  | .item key items => (.afterItem key (items ++ [String.mk acc]), data)

/-- One character of a JSON text. -/
def readChar (state : ParseState × SavedData) (c : Char) : ParseState × SavedData :=
  let data := state.2
  match state.1 with
  | .start =>
    if isJsonSpace c then state else if c = '\x7b' then (.objectOpen, data) else (.failed, data)
  | .objectOpen =>
    if isJsonSpace c then state
    else if c = '"' then (.chars .key [], data)
    else if c = '\x7d' then (.done, data)
    else (.failed, data)
  | .nextKey =>
    if isJsonSpace c then state
    else if c = '"' then (.chars .key [], data)
    else (.failed, data)
  | .afterKey key =>
    if isJsonSpace c then state else if c = ':' then (.value key, data) else (.failed, data)
  | .value key =>
    if isJsonSpace c then state
    else if c = '"' then (.chars (.scalar key) [], data)
    else if c = '[' then (.arrayOpen key, data)
    else (.failed, data)
  | .arrayOpen key =>
    if isJsonSpace c then state
    else if c = '"' then (.chars (.item key []) [], data)
    else if c = ']' then (.afterValue, setProperty data key (.list []))
    else (.failed, data)
  | .nextItem key items =>
    if isJsonSpace c then state
    else if c = '"' then (.chars (.item key items) [], data)
    else (.failed, data)
  | .afterItem key items =>
    if isJsonSpace c then state
    else if c = ',' then (.nextItem key items, data)
    else if c = ']' then (.afterValue, setProperty data key (.list items))
    else (.failed, data)
  | .afterValue =>
    if isJsonSpace c then state
    else if c = ',' then (.nextKey, data)
    else if c = '\x7d' then (.done, data)
    else (.failed, data)
  | .done => if isJsonSpace c then state else (.failed, data)
  | .chars role acc =>
    if c = '"' then finishString role acc data
    else if c = '\\' then (.escape role acc, data)
    else if c.toNat < 0x20 then (.failed, data)
    else (.chars role (acc ++ [c]), data)
  | .escape role acc =>
    if c = '"' ∨ c = '\\' ∨ c = '/' then (.chars role (acc ++ [c]), data)
    else if c = 'b' then (.chars role (acc ++ ['\x08']), data)
    else if c = 'f' then (.chars role (acc ++ ['\x0c']), data)
    else if c = 'n' then (.chars role (acc ++ ['\n']), data)
    else if c = 'r' then (.chars role (acc ++ ['\r']), data)
    else if c = 't' then (.chars role (acc ++ ['\t']), data)
    else if c = 'u' then (.hex role acc [], data)
    else (.failed, data)
  | .hex role acc digits =>
    match hexValue c with
    | none => (.failed, data)
    | some d =>
      if digits.length < 3 then (.hex role acc (digits ++ [d]), data)
      else
        let code := (digits ++ [d]).foldl (fun n digit => 16 * n + digit) 0
        if 0xD800 ≤ code ∧ code ≤ 0xDFFF then (.failed, data)
        else (.chars role (acc ++ [Char.ofNat code]), data)
  | .failed => state

/-- Models `JSON.parse(text)` on the texts of a saved object: an object whose
values are strings or arrays of strings.  A text that is no JSON at all is a
`SyntaxError`.  JSON values of other shapes (numbers, `null`, nested objects,
escaped surrogates) have no counterpart in `SavedData`; this reader covers the
saved objects only and refuses them too. -/
def jsonParse (text : String) : Except JSError SavedData :=
  match text.data.foldl readChar (.start, []) with
  | (.done, data) => .ok data
  | _ => .error .syntaxError

/-! ## Theorems -/

/-! ### Estimator -/

theorem parseSelector_distance :
    parseSelector "#Vehicle Monthly Distance Km"
      = [.id "Vehicle", .type "monthly", .type "distance", .type "km"] := by
  decide

theorem parseSelector_airTravel :
    parseSelector "#Frequency of Traveling by Air"
      = [.id "Frequency", .type "of", .type "traveling", .type "by", .type "air"] := by
  decide

theorem querySelector_formWithTooltipIds (transport diet distance airTravel : String) :
    (querySelector (formWithTooltipIds transport diet distance airTravel) "#Transport").map
        Node.value = some (some transport)
    ∧ (querySelector (formWithTooltipIds transport diet distance airTravel) "#Diet").map
        Node.value = some (some diet)
    ∧ querySelector (formWithTooltipIds transport diet distance airTravel)
        "#Vehicle Monthly Distance Km" = none
    ∧ querySelector (formWithTooltipIds transport diet distance airTravel)
        "#Frequency of Traveling by Air" = none := by
  refine ⟨?_, ?_, ?_, ?_⟩ <;> rfl

/-- C1 (the code departs from it): on a form whose four fields carry the ids
that the script itself names in `tooltips`, holding private / 1000 / vegan /
frequently, with the display element present, `#Vehicle Monthly Distance Km`
is read as a chain of descendant selectors and finds nothing, so
`updateEstimate` throws a `TypeError` and leaves the display as it was: the
text `2400` is not written. -/
theorem updateEstimate_throws_on_tooltip_ids (parseFloat : String → JSNumber) :
    "Vehicle Monthly Distance Km" ∈ tooltips.map Prod.fst
    ∧ querySelector (formWithTooltipIds "private" "vegan" "1000" "frequently")
        "#Vehicle Monthly Distance Km" = none
    ∧ updateEstimate parseFloat (some ⟨"", ""⟩)
        (formWithTooltipIds "private" "vegan" "1000" "frequently")
        = (some ⟨"", ""⟩, .threw .typeError)
    ∧ (updateEstimate parseFloat (some ⟨"", ""⟩)
        (formWithTooltipIds "private" "vegan" "1000" "frequently")).1.map
          Display.textContent ≠ some "2400" := by
  refine ⟨by decide, rfl, rfl, ?_⟩
  have h : updateEstimate parseFloat (some ⟨"", ""⟩)
      (formWithTooltipIds "private" "vegan" "1000" "frequently")
      = (some ⟨"", ""⟩, .threw .typeError) := rfl
  rw [h]
  decide

/-- C6 (the code departs from it): the same defect as in C1.  On the form with
the ids of `tooltips`, holding private / 1000 / vegan / frequently,
`#Frequency of Traveling by Air` and `#Vehicle Monthly Distance Km` find
nothing and `updateEstimate` throws before it sets a colour: the display keeps
the colour it had and is not coloured orange. -/
theorem updateEstimate_sets_no_color_on_tooltip_ids (parseFloat : String → JSNumber) :
    "Frequency of Traveling by Air" ∈ tooltips.map Prod.fst
    ∧ querySelector (formWithTooltipIds "private" "vegan" "1000" "frequently")
        "#Frequency of Traveling by Air" = none
    ∧ (updateEstimate parseFloat (some ⟨"0", "black"⟩)
        (formWithTooltipIds "private" "vegan" "1000" "frequently")).2 = .threw .typeError
    ∧ (updateEstimate parseFloat (some ⟨"0", "black"⟩)
        (formWithTooltipIds "private" "vegan" "1000" "frequently")).1.map
          Display.color = some "black"
    ∧ "black" ≠ "#FF9800" := by
  refine ⟨by decide, rfl, rfl, rfl, by decide⟩

/-- The arithmetic is that of doubles: with distance `-2 ^ -44` the estimate of
private / no diet / frequently is exactly 2500 and is coloured red-orange, and
with distance `2.4999999999999996` the estimate of private alone is 2000.5,
written as `2001`. -/
theorem rawEstimate_in_doubles :
    rawEstimate (some "private") (some "") (.finite (-twoPow (-44))) "frequently"
      = .number (.finite 2500)
    ∧ getColorForEstimate
        (rawEstimate (some "private") (some "") (.finite (-twoPow (-44))) "frequently")
      = "#FF5722"
    ∧ roundDouble (24999999999999996 / 10000000000000000) = .finite (5 / 2 - twoPow (-51))
    ∧ rawEstimate (some "private") (some "") (.finite (5 / 2 - twoPow (-51))) ""
      = .number (.finite (4001 / 2))
    ∧ shownText (rawEstimate (some "private") (some "") (.finite (5 / 2 - twoPow (-51))) "")
      = "2001" := by
  refine ⟨by decide!, by decide!, by decide!, by decide!, by decide!⟩

/-- Where the four selectors do find elements the estimate is written: a
distance of 1000 gives `2400` in orange, a distance of 1498 gives `2500` in
orange, and the air-travel key `constructor`, read from `Object.prototype`,
gives `NaN` in red. -/
theorem rawEstimate_examples :
    shownText (rawEstimate (some "private") (some "vegan") (.finite 1000) "frequently") = "2400"
    ∧ getColorForEstimate
        (rawEstimate (some "private") (some "vegan") (.finite 1000) "frequently") = "#FF9800"
    ∧ shownText (rawEstimate (some "private") (some "vegan") (.finite 1498) "frequently") = "2500"
    ∧ getColorForEstimate
        (rawEstimate (some "private") (some "vegan") (.finite 1498) "frequently") = "#FF9800"
    ∧ shownText (rawEstimate (some "public") (some "vegan") .nan "constructor") = "NaN"
    ∧ getColorForEstimate (rawEstimate (some "public") (some "vegan") .nan "constructor")
      = "#F44336" := by
  refine ⟨by decide!, by decide!, by decide!, by decide!, by decide!, by decide!⟩

/-- A page on which the selectors of `updateEstimate` match: the elements they
find are of type `km` and `air`; with no `value` property on them the distance
is 0 and the air-travel key is `undefined`. -/
theorem updateEstimate_on_matching_page :
    updateEstimate (fun _ => .nan) (some ⟨"", ""⟩)
      [⟨"select", "Transport", some "public", [("form", "carbonForm")]⟩,
       ⟨"select", "Diet", some "vegan", [("form", "carbonForm")]⟩,
       ⟨"km", "", none,
        [("form", "carbonForm"), ("div", "Vehicle"), ("monthly", ""), ("distance", "")]⟩,
       ⟨"air", "", none,
        [("form", "carbonForm"), ("div", "Frequency"), ("of", ""), ("traveling", ""),
         ("by", "")]⟩]
      = (some ⟨"1400", "#4CAF50"⟩, .returned) := by
  decide!

/-! ### Inline error messages -/

theorem showError_same (doc : ErrorMessages) (p : Nat) (m : String) :
    showError doc p m p = ⟨m, "#ff4444", "0.85rem", "5px"⟩ :: (doc p).drop 1 := by
  unfold showError
  cases h : doc p <;> simp

theorem showError_other (doc : ErrorMessages) (p q : Nat) (m : String) (hq : q ≠ p) :
    showError doc p m q = doc q := by
  unfold showError
  cases h : doc p <;> simp [Function.update, hq]

theorem hideError_same (doc : ErrorMessages) (p : Nat) :
    hideError doc p p = (doc p).drop 1 := by
  unfold hideError
  cases h : doc p <;> simp [h]

theorem hideError_other (doc : ErrorMessages) (p q : Nat) (hq : q ≠ p) :
    hideError doc p q = doc q := by
  unfold hideError
  cases h : doc p <;> simp [Function.update, hq]

theorem drop_one_eq_nil {α : Type} (l : List α) (h : l.length ≤ 1) : l.drop 1 = [] := by
  cases l with
  | nil => rfl
  | cons a t =>
    cases t with
    | nil => rfl
    | cons b u => simp at h

/-- C10: with at most one `.error-message` under the parent of a field,
`hideError` with none attached changes nothing; `showError` with one attached
replaces its text without adding an element; `showError` twice leaves exactly
one message, carrying the second text; `hideError` after `showError` leaves
none; `hideError` twice equals `hideError` once; and both keep at most one
message under the parent. -/
theorem showError_hideError_single (doc : ErrorMessages) (p : Nat) (a b : String)
    (h : (doc p).length ≤ 1) :
    (doc p = [] → hideError doc p = doc)
    ∧ (doc p ≠ [] →
        (showError doc p a p).length = (doc p).length ∧ errorText (showError doc p a) p = some a)
    ∧ (showError (showError doc p a) p b p).map ErrorElement.textContent = [b]
    ∧ hideError (showError doc p a) p p = []
    ∧ hideError (hideError doc p) p = hideError doc p
    ∧ (showError doc p a p).length ≤ 1 ∧ (hideError doc p p).length ≤ 1 := by
  have hd : (doc p).drop 1 = [] := drop_one_eq_nil _ h
  refine ⟨?_, ?_, ?_, ?_, ?_, ?_, ?_⟩
  · intro h0
    unfold hideError
    rw [h0]
  · intro h0
    rw [showError_same, hd]
    refine ⟨?_, by simp [errorText, showError_same]⟩
    cases hl : doc p with
    | nil => exact absurd hl h0
    | cons e t =>
      rw [hl] at hd
      simp at hd
      simp [hd]
  · rw [showError_same, showError_same, hd]
    rfl
  · rw [hideError_same, showError_same, hd]
    rfl
  · funext q
    by_cases hq : q = p
    · subst hq
      rw [hideError_same, hideError_same, hd]
      rfl
    · rw [hideError_other _ _ _ hq]
  · rw [showError_same, hd]
    simp
  · rw [hideError_same, hd]
    simp

theorem showError_hideError_single_witness :
    ((fun _ => [⟨"old", "", "", ""⟩] : ErrorMessages) 0 = [] →
        hideError (fun _ => [⟨"old", "", "", ""⟩]) 0 = (fun _ => [⟨"old", "", "", ""⟩]))
    ∧ ((fun _ => [⟨"old", "", "", ""⟩] : ErrorMessages) 0 ≠ [] →
        (showError (fun _ => [⟨"old", "", "", ""⟩]) 0 "a" 0).length
            = ((fun _ => [⟨"old", "", "", ""⟩] : ErrorMessages) 0).length
          ∧ errorText (showError (fun _ => [⟨"old", "", "", ""⟩]) 0 "a") 0 = some "a")
    ∧ (showError (showError (fun _ => [⟨"old", "", "", ""⟩]) 0 "a") 0 "b" 0).map
        ErrorElement.textContent = ["b"]
    ∧ hideError (showError (fun _ => [⟨"old", "", "", ""⟩]) 0 "a") 0 0 = []
    ∧ hideError (hideError (fun _ => [⟨"old", "", "", ""⟩]) 0) 0
        = hideError (fun _ => [⟨"old", "", "", ""⟩]) 0
    ∧ (showError (fun _ => [⟨"old", "", "", ""⟩]) 0 "a" 0).length ≤ 1
    ∧ (hideError (fun _ => [⟨"old", "", "", ""⟩]) 0 0).length ≤ 1 :=
  showError_hideError_single (fun _ => [⟨"old", "", "", ""⟩]) 0 "a" "b" (by decide)

/-! ### Validator -/

theorem validateFields_isValid (fields : List Field) (isValid : Bool) (doc : ErrorMessages) :
    (validateFields fields isValid doc).2.1
      = (isValid && fields.all (fun f => !f.required || decide (jsTrim f.value ≠ ""))) := by
  induction fields generalizing isValid doc with
  | nil => simp [validateFields]
  | cons f rest ih =>
    unfold validateFields
    by_cases hr : f.required = true
    · by_cases hb : jsTrim f.value = ""
      · simp [hr, hb, ih]
      · simp [hr, hb, ih]
    · simp [hr, ih]

theorem validateFields_fields (fields : List Field) (isValid : Bool) (doc : ErrorMessages) :
    (validateFields fields isValid doc).1
      = fields.map (fun f =>
          if f.required then
            { f with borderColor := if jsTrim f.value = "" then "#ff4444" else "#4CAF50" }
          else f) := by
  induction fields generalizing isValid doc with
  | nil => simp [validateFields]
  | cons f rest ih =>
    unfold validateFields
    by_cases hr : f.required = true
    · by_cases hb : jsTrim f.value = ""
      · simp [hr, hb, ih]
      · simp [hr, hb, ih]
    · simp [hr, ih]

theorem validateFields_errors_other (fields : List Field) (isValid : Bool)
    (doc : ErrorMessages) (p : Nat)
    (hp : ∀ f ∈ fields, f.required = true → f.parentElement ≠ p) :
    (validateFields fields isValid doc).2.2 p = doc p := by
  induction fields generalizing isValid doc with
  | nil => simp [validateFields]
  | cons f rest ih =>
    have hrest : ∀ g ∈ rest, g.required = true → g.parentElement ≠ p :=
      fun g hg => hp g (List.mem_cons_of_mem _ hg)
    unfold validateFields
    by_cases hr : f.required = true
    · have hne : p ≠ f.parentElement := fun h => hp f (List.mem_cons_self _ _) hr h.symm
      by_cases hb : jsTrim f.value = ""
      · simp only [hr, hb, if_true]
        rw [ih _ _ hrest, showError_other _ _ _ _ hne]
      · simp only [hr, hb, if_true, if_false]
        rw [ih _ _ hrest, hideError_other _ _ _ hne]
    · simp only [hr]
      exact ih _ _ hrest

theorem validateFields_errors (fields : List Field) (isValid : Bool) (doc : ErrorMessages)
    (hnodup : ((fields.filter (fun f => f.required)).map Field.parentElement).Nodup)
    (hone : ∀ f ∈ fields, f.required = true → (doc f.parentElement).length ≤ 1)
    (f : Field) (hf : f ∈ fields) (hreq : f.required = true) :
    (jsTrim f.value = "" →
        errorText (validateFields fields isValid doc).2.2 f.parentElement
          = some "This field is required")
    ∧ (jsTrim f.value ≠ "" → (validateFields fields isValid doc).2.2 f.parentElement = []) := by
  induction fields generalizing isValid doc with
  | nil => simp at hf
  | cons g rest ih =>
    have hone' : ∀ k ∈ rest, k.required = true → (doc k.parentElement).length ≤ 1 :=
      fun k hk => hone k (List.mem_cons_of_mem _ hk)
    by_cases hr : g.required = true
    · have hfilter : (g :: rest).filter (fun f => f.required)
          = g :: rest.filter (fun f => f.required) := by simp [List.filter, hr]
      rw [hfilter, List.map_cons, List.nodup_cons] at hnodup
      obtain ⟨hnotin, hnodup'⟩ := hnodup
      have hdistinct : ∀ k ∈ rest, k.required = true → k.parentElement ≠ g.parentElement := by
        intro k hk hkr heq
        apply hnotin
        rw [← heq]
        exact List.mem_map_of_mem _ (List.mem_filter.mpr ⟨hk, by simpa using hkr⟩)
      rcases List.mem_cons.mp hf with hfg | hfr
      · subst hfg
        unfold validateFields
        by_cases hb : jsTrim f.value = ""
        · simp only [hr, hb, if_true]
          refine ⟨fun _ => ?_, fun h => absurd rfl h⟩
          unfold errorText
          rw [validateFields_errors_other _ _ _ _ hdistinct, showError_same]
          rfl
        · simp only [hr, hb, if_true, if_false]
          refine ⟨fun h => h.elim, fun _ => ?_⟩
          rw [validateFields_errors_other _ _ _ _ hdistinct, hideError_same]
          exact drop_one_eq_nil _ (hone f (List.mem_cons_self _ _) hr)
      · unfold validateFields
        by_cases hb : jsTrim g.value = ""
        · simp only [hr, hb, if_true]
          apply ih _ _ hnodup' _ hfr
          intro k hk hkr
          rw [showError_other _ _ _ _ (hdistinct k hk hkr)]
          exact hone' k hk hkr
        · simp only [hr, hb, if_true, if_false]
          apply ih _ _ hnodup' _ hfr
          intro k hk hkr
          rw [hideError_other _ _ _ (hdistinct k hk hkr)]
          exact hone' k hk hkr
    · have hfilter : (g :: rest).filter (fun f => f.required)
          = rest.filter (fun f => f.required) := by simp [List.filter, hr]
      rw [hfilter] at hnodup
      have hfr : f ∈ rest := by
        rcases List.mem_cons.mp hf with hfg | hfr
        · subst hfg
          exact absurd hreq hr
        · exact hfr
      unfold validateFields
      simp only [hr]
      exact ih _ _ hnodup hone' hfr

theorem submitHandler_eq (page : Page) :
    submitHandler page
      = ({ fields := (validateFields page.fields true page.errors).1,
           errors := (validateFields page.fields true page.errors).2.2,
           notifier :=
             if !(validateFields page.fields true page.errors).2.1 then
               showNotification page.notifier [.text "Please fill in all required fields"] (some "error")
             else page.notifier },
         !(validateFields page.fields true page.errors).2.1) := by
  unfold submitHandler
  cases h : (validateFields page.fields true page.errors).2.1 <;> simp [h]

/-- C2: the submit handler calls `preventDefault` exactly when some required
field has a value that is empty after trimming, and then (and only then) shows
the error notification "Please fill in all required fields"; submission
proceeds exactly when every required field is non-blank. -/
theorem submitHandler_prevents_iff_blank (page : Page) :
    ((submitHandler page).2 = true ↔
        ∃ f ∈ page.fields, f.required = true ∧ jsTrim f.value = "")
    ∧ ((submitHandler page).2 = false ↔
        ∀ f ∈ page.fields, f.required = true → jsTrim f.value ≠ "")
    ∧ ((submitHandler page).1.notifier
        = if (submitHandler page).2 then
            showNotification page.notifier [.text "Please fill in all required fields"] (some "error")
          else page.notifier)
    ∧ ∀ doc : Notifier,
        ∃ n ∈ (showNotification doc [.text "Please fill in all required fields"]
            (some "error")).present,
          n.message = [.text "Please fill in all required fields"]
            ∧ n.className = "notification notification-error"
            ∧ n.background = "#ff4444" := by
  have hv := validateFields_isValid page.fields true page.errors
  have hall : (validateFields page.fields true page.errors).2.1 = true ↔
      ∀ f ∈ page.fields, f.required = true → jsTrim f.value ≠ "" := by
    rw [hv]
    simp only [Bool.true_and, List.all_eq_true, Bool.or_eq_true, Bool.not_eq_true',
      decide_eq_true_eq]
    constructor
    · intro h f hf hr
      rcases h f hf with h1 | h1
      · rw [hr] at h1
        exact absurd h1 (by decide)
      · exact h1
    · intro h f hf
      by_cases hr : f.required = true
      · exact Or.inr (h f hf hr)
      · exact Or.inl (by simpa using hr)
  have hprev : (submitHandler page).2 = !(validateFields page.fields true page.errors).2.1 := by
    rw [submitHandler_eq]
  have hnot : (submitHandler page).1.notifier
      = if (submitHandler page).2 then
          showNotification page.notifier [.text "Please fill in all required fields"] (some "error")
        else page.notifier := by
    rw [submitHandler_eq]
  refine ⟨?_, ?_, hnot, ?_⟩
  · rw [hprev]
    constructor
    · intro h
      by_contra hne
      push_neg at hne
      have := hall.mpr hne
      rw [this] at h
      exact absurd h (by decide)
    · rintro ⟨f, hf, hr, hb⟩
      cases hvv : (validateFields page.fields true page.errors).2.1 with
      | false => rfl
      | true => exact absurd hb (hall.mp hvv f hf hr)
  · rw [hprev]
    constructor
    · intro h
      apply hall.mp
      cases hvv : (validateFields page.fields true page.errors).2.1 with
      | false => rw [hvv] at h; exact absurd h (by decide)
      | true => rfl
    · intro h
      rw [hall.mpr h]
      rfl
  · intro doc
    refine ⟨⟨doc.nextId, "notification notification-error",
      [.text "Please fill in all required fields"], "#ff4444"⟩, ?_, rfl, rfl, rfl⟩
    unfold showNotification
    apply List.mem_append_right
    simp only [Option.getD_some, List.mem_singleton]
    rfl

/-- C7 (amended): in a form whose required fields have pairwise distinct
parent elements, each holding at most one `.error-message` beforehand, after
the submit handler every required field with an empty trimmed value has border
colour `#ff4444` and the message "This field is required" attached, and every
required field with a non-empty trimmed value has border colour `#4CAF50` and
no message attached; the fields are otherwise unchanged. -/
theorem submitHandler_marks_fields (page : Page)
    (hnodup : ((page.fields.filter (fun f => f.required)).map Field.parentElement).Nodup)
    (hone : ∀ f ∈ page.fields, f.required = true →
      (page.errors f.parentElement).length ≤ 1) :
    (submitHandler page).1.fields
        = page.fields.map (fun f =>
            if f.required then
              { f with borderColor := if jsTrim f.value = "" then "#ff4444" else "#4CAF50" }
            else f)
    ∧ ∀ f ∈ (submitHandler page).1.fields, f.required = true →
        (jsTrim f.value = "" →
          f.borderColor = "#ff4444"
            ∧ errorText (submitHandler page).1.errors f.parentElement
                = some "This field is required")
        ∧ (jsTrim f.value ≠ "" →
          f.borderColor = "#4CAF50"
            ∧ (submitHandler page).1.errors f.parentElement = []) := by
  have hfields : (submitHandler page).1.fields
      = (validateFields page.fields true page.errors).1 := by
    rw [submitHandler_eq]
  have herrors : (submitHandler page).1.errors
      = (validateFields page.fields true page.errors).2.2 := by
    rw [submitHandler_eq]
  rw [hfields, herrors, validateFields_fields]
  refine ⟨rfl, ?_⟩
  intro f hf hreq
  obtain ⟨g, hg, hgf⟩ := List.mem_map.mp hf
  by_cases hgr : g.required = true
  · simp only [hgr, if_true] at hgf
    have hval : f.value = g.value := by rw [← hgf]
    have hpar : f.parentElement = g.parentElement := by rw [← hgf]
    have hcol : f.borderColor = if jsTrim g.value = "" then "#ff4444" else "#4CAF50" := by
      rw [← hgf]
    have herr := validateFields_errors page.fields true page.errors hnodup hone g hg hgr
    rw [hval, hpar]
    constructor
    · intro hb
      exact ⟨by rw [hcol, if_pos hb], herr.1 hb⟩
    · intro hb
      exact ⟨by rw [hcol, if_neg hb], herr.2 hb⟩
  · simp only [hgr] at hgf
    rw [← hgf] at hreq
    exact absurd hreq hgr

theorem submitHandler_marks_fields_witness :
    (submitHandler ⟨[⟨"  ", true, 0, ""⟩, ⟨"bus", true, 1, ""⟩, ⟨"", false, 1, ""⟩],
        fun _ => [], ⟨[], [], 0⟩⟩).1.fields
        = ([⟨"  ", true, 0, ""⟩, ⟨"bus", true, 1, ""⟩, ⟨"", false, 1, ""⟩] : List Field).map
            (fun f =>
              if f.required then
                { f with borderColor := if jsTrim f.value = "" then "#ff4444" else "#4CAF50" }
              else f)
    ∧ ∀ f ∈ (submitHandler ⟨[⟨"  ", true, 0, ""⟩, ⟨"bus", true, 1, ""⟩, ⟨"", false, 1, ""⟩],
        fun _ => [], ⟨[], [], 0⟩⟩).1.fields, f.required = true →
        (jsTrim f.value = "" →
          f.borderColor = "#ff4444"
            ∧ errorText (submitHandler ⟨[⟨"  ", true, 0, ""⟩, ⟨"bus", true, 1, ""⟩,
                ⟨"", false, 1, ""⟩], fun _ => [], ⟨[], [], 0⟩⟩).1.errors f.parentElement
                = some "This field is required")
        ∧ (jsTrim f.value ≠ "" →
          f.borderColor = "#4CAF50"
            ∧ (submitHandler ⟨[⟨"  ", true, 0, ""⟩, ⟨"bus", true, 1, ""⟩,
                ⟨"", false, 1, ""⟩], fun _ => [], ⟨[], [], 0⟩⟩).1.errors f.parentElement = []) :=
  submitHandler_marks_fields
    ⟨[⟨"  ", true, 0, ""⟩, ⟨"bus", true, 1, ""⟩, ⟨"", false, 1, ""⟩], fun _ => [], ⟨[], [], 0⟩⟩
    (by decide) (by intro f _ _; exact Nat.zero_le 1)

/-- C7 (as stated) fails: two required fields under one parent, the first
blank and the second filled.  The handler attaches the message for the first
and then removes it for the second, so the blank required field ends without
an ErrorMessage. -/
theorem submitHandler_shared_parent_counterexample :
    (submitHandler ⟨[⟨"", true, 0, ""⟩, ⟨"bus", true, 0, ""⟩], fun _ => [], ⟨[], [], 0⟩⟩).1.fields
        = [⟨"", true, 0, "#ff4444"⟩, ⟨"bus", true, 0, "#4CAF50"⟩]
    ∧ (submitHandler ⟨[⟨"", true, 0, ""⟩, ⟨"bus", true, 0, ""⟩],
        fun _ => [], ⟨[], [], 0⟩⟩).1.errors 0 = []
    ∧ errorText (submitHandler ⟨[⟨"", true, 0, ""⟩, ⟨"bus", true, 0, ""⟩],
        fun _ => [], ⟨[], [], 0⟩⟩).1.errors 0 ≠ some "This field is required" := by
  refine ⟨by decide, by decide, by decide⟩

theorem numberInputHandler_below (numberToString : ℚ → String) (doc : ErrorMessages)
    (input : NumberInput) (h : jsLt input.value input.min = true) :
    numberInputHandler numberToString doc input
      = ({ input with value := input.min },
          showError doc input.parentElement
            ("Minimum value is " ++ render numberToString input.min)) := by
  unfold numberInputHandler
  simp only [h, if_true]

theorem numberInputHandler_above (numberToString : ℚ → String) (doc : ErrorMessages)
    (input : NumberInput) (h1 : jsLt input.value input.min = false)
    (h2 : jsLt input.max input.value = true) :
    numberInputHandler numberToString doc input
      = ({ input with value := input.max },
          showError doc input.parentElement
            ("Maximum value is " ++ render numberToString input.max)) := by
  unfold numberInputHandler
  simp only [h1, h2, if_true, Bool.false_eq_true, if_false]

theorem numberInputHandler_within (numberToString : ℚ → String) (doc : ErrorMessages)
    (input : NumberInput) (h1 : jsLt input.value input.min = false)
    (h2 : jsLt input.max input.value = false) :
    numberInputHandler numberToString doc input
      = ({ input with borderColor := "#4CAF50" }, hideError doc input.parentElement) := by
  unfold numberInputHandler
  simp only [h1, h2, Bool.false_eq_true, if_false]

theorem jsLt_some (a b : ℚ) : jsLt (some a) (some b) = decide (a < b) := rfl

/-- C3: the `input` listener of a number field with parsed bounds `min`, `max`
and parsed value `v` leaves the value `min` with the message `Minimum value is`
followed by `min` when `v < min`; otherwise `max` with the message `Maximum
value is` followed by `max` when `v > max`; otherwise the value unchanged, the first error message under
the parent removed (none is left when there was at most one) and the border
valid.  An unparseable value is never clamped, and when `min ≤ max` and `v`
parses the resulting value lies in `[min, max]`. -/
theorem numberInputHandler_clamps (numberToString : ℚ → String) (doc : ErrorMessages)
    (input : NumberInput) :
    (∀ v m, input.value = some v → input.min = some m → v < m →
        (numberInputHandler numberToString doc input).1.value = some m
          ∧ errorText (numberInputHandler numberToString doc input).2 input.parentElement
              = some ("Minimum value is " ++ numberToString m))
    ∧ (∀ v M, input.value = some v → input.max = some M → jsLt input.value input.min = false →
        M < v →
        (numberInputHandler numberToString doc input).1.value = some M
          ∧ errorText (numberInputHandler numberToString doc input).2 input.parentElement
              = some ("Maximum value is " ++ numberToString M))
    ∧ (jsLt input.value input.min = false → jsLt input.max input.value = false →
        (numberInputHandler numberToString doc input).1.value = input.value
          ∧ (numberInputHandler numberToString doc input).2 = hideError doc input.parentElement
          ∧ ((doc input.parentElement).length ≤ 1 →
              (numberInputHandler numberToString doc input).2 input.parentElement = [])
          ∧ (numberInputHandler numberToString doc input).1.borderColor = "#4CAF50")
    ∧ (input.value = none →
        (numberInputHandler numberToString doc input).1.value = none)
    ∧ (∀ v m M, input.value = some v → input.min = some m → input.max = some M → m ≤ M →
        ∃ w, (numberInputHandler numberToString doc input).1.value = some w
          ∧ m ≤ w ∧ w ≤ M) := by
  refine ⟨?_, ?_, ?_, ?_, ?_⟩
  · intro v m hv hm hlt
    have h : jsLt input.value input.min = true := by
      rw [hv, hm, jsLt_some]
      exact decide_eq_true hlt
    rw [numberInputHandler_below _ _ _ h, hm]
    refine ⟨rfl, ?_⟩
    unfold errorText
    dsimp only
    rw [showError_same]
    rfl
  · intro v M hv hM hnot hlt
    have h : jsLt input.max input.value = true := by
      rw [hv, hM, jsLt_some]
      exact decide_eq_true hlt
    rw [numberInputHandler_above _ _ _ hnot h, hM]
    refine ⟨rfl, ?_⟩
    unfold errorText
    dsimp only
    rw [showError_same]
    rfl
  · intro h1 h2
    rw [numberInputHandler_within _ _ _ h1 h2]
    refine ⟨rfl, rfl, ?_, rfl⟩
    intro hlen
    show hideError doc input.parentElement input.parentElement = []
    rw [hideError_same]
    exact drop_one_eq_nil _ hlen
  · intro hv
    have h1 : jsLt input.value input.min = false := by rw [hv]; rfl
    have h2 : jsLt input.max input.value = false := by
      rw [hv]
      cases input.max <;> rfl
    rw [numberInputHandler_within _ _ _ h1 h2]
    exact hv
  · intro v m M hv hm hM hle
    by_cases hlt : v < m
    · have h : jsLt input.value input.min = true := by
        rw [hv, hm, jsLt_some]
        exact decide_eq_true hlt
      rw [numberInputHandler_below _ _ _ h]
      exact ⟨m, hm, le_refl m, hle⟩
    · have h1 : jsLt input.value input.min = false := by
        rw [hv, hm, jsLt_some]
        exact decide_eq_false hlt
      by_cases hgt : M < v
      · have h2 : jsLt input.max input.value = true := by
          rw [hv, hM, jsLt_some]
          exact decide_eq_true hgt
        rw [numberInputHandler_above _ _ _ h1 h2]
        exact ⟨M, hM, hle, le_refl M⟩
      · have h2 : jsLt input.max input.value = false := by
          rw [hv, hM, jsLt_some]
          exact decide_eq_false hgt
        rw [numberInputHandler_within _ _ _ h1 h2]
        exact ⟨v, hv, not_lt.mp hlt, not_lt.mp hgt⟩

theorem numberInputHandler_clamps_witness :
    ((numberInputHandler (fun q => toString q.num) (fun _ => [])
          ⟨some 0, some 100, some (-3), 0, ""⟩).1.value = some 0
      ∧ errorText (numberInputHandler (fun q => toString q.num) (fun _ => [])
          ⟨some 0, some 100, some (-3), 0, ""⟩).2 0
          = some ("Minimum value is " ++ (fun q : ℚ => toString q.num) 0))
    ∧ ((numberInputHandler (fun q => toString q.num) (fun _ => [])
          ⟨some 0, some 100, some 250, 0, ""⟩).1.value = some 100
      ∧ errorText (numberInputHandler (fun q => toString q.num) (fun _ => [])
          ⟨some 0, some 100, some 250, 0, ""⟩).2 0
          = some ("Maximum value is " ++ (fun q : ℚ => toString q.num) 100))
    ∧ (∃ w, (numberInputHandler (fun q => toString q.num) (fun _ => [])
          ⟨some 0, some 100, some 42, 0, ""⟩).1.value = some w ∧ 0 ≤ w ∧ w ≤ 100) :=
  ⟨(numberInputHandler_clamps (fun q => toString q.num) (fun _ => [])
      ⟨some 0, some 100, some (-3), 0, ""⟩).1 (-3) 0 rfl rfl (by norm_num),
   (numberInputHandler_clamps (fun q => toString q.num) (fun _ => [])
      ⟨some 0, some 100, some 250, 0, ""⟩).2.1 250 100 rfl rfl (by decide!) (by norm_num),
   (numberInputHandler_clamps (fun q => toString q.num) (fun _ => [])
      ⟨some 0, some 100, some 42, 0, ""⟩).2.2.2.2 42 0 100 rfl rfl rfl (by norm_num)⟩

/-! ### Notifier -/

/-- C5 (the code departs from it): the message is written with `innerHTML`, so
its markup becomes elements.  From a document without notifications, one call
with a message holding an element of class `notification` leaves two elements
that `.notification` selects; and after a plain first call, a second call with
such a message leaves two as well, where the claim has exactly one. -/
theorem showNotification_markup_adds_notification :
    (Notifier.mk [] [] 0).count = 0
    ∧ (showNotification ⟨[], [], 0⟩ [.element "notification" ""] (some "info")).count = 2
    ∧ (showNotification (showNotification ⟨[], [], 0⟩ [.text "saved"] (some "success"))
        [.element "notification" ""] (some "info")).count = 2
    ∧ (showNotification (showNotification ⟨[], [], 0⟩ [.text "saved"] (some "success"))
        [.text "done"] (some "info")).count = 1 := by
  refine ⟨by decide, by decide, by decide, by decide⟩

/-! ### Tooltips -/

/-- C8 (the code departs from it): a pointer that leaves the label and is back
before the 300 ms timer fires gives the label two tooltips; and after a second
leave, with every pending timer fired, the second tooltip remains under the
label, since both timers hold the first one. -/
theorem tooltip_reentry_leaves_tooltip :
    ((addTooltip ⟨"", "", none, [], [], 0⟩ "help").run [.enter, .leave, .enter]).tooltips
        = [⟨0, "help", "0"⟩, ⟨1, "help", "1"⟩]
    ∧ ((addTooltip ⟨"", "", none, [], [], 0⟩ "help").run
        [.enter, .leave, .enter, .leave]).timers = [0, 0]
    ∧ ((addTooltip ⟨"", "", none, [], [], 0⟩ "help").run
        [.enter, .leave, .enter, .leave, .timer 0, .timer 0]).tooltips = [⟨1, "help", "1"⟩]
    ∧ ((addTooltip ⟨"", "", none, [], [], 0⟩ "help").run
        [.enter, .leave, .enter, .leave, .timer 0, .timer 0]).timers = [] := by
  refine ⟨by decide, by decide, by decide, by decide⟩

/-! ### Persistence -/

/-- C4 (the code departs from it): three checkboxes named `X` with values
`a`, `b`, `c`, of which `a` and `c` are checked, and a text field `Y` holding
`hello`.  `autoSaveForm` stores both checked values, but `loadSavedForm` on the
fresh form writes only the first control named `X`: `a` is checked, `c` stays
unchecked, `Y` is restored. -/
theorem roundTrip_restores_first_checkbox_only
    (css : String → List Element → Except JSError (Option Nat)) :
    autoSaveForm jsonStringify
        [⟨some "X", .checkbox, "a", true, false⟩, ⟨some "X", .checkbox, "b", false, false⟩,
         ⟨some "X", .checkbox, "c", true, false⟩, ⟨some "Y", .other, "hello", false, false⟩]
      = some "\x7b\"X\":[\"a\",\"c\"],\"Y\":\"hello\"\x7d"
    ∧ jsonParse "\x7b\"X\":[\"a\",\"c\"],\"Y\":\"hello\"\x7d"
      = .ok [("X", .list ["a", "c"]), ("Y", .scalar "hello")]
    ∧ loadSavedForm jsonParse css
        (autoSaveForm jsonStringify
          [⟨some "X", .checkbox, "a", true, false⟩, ⟨some "X", .checkbox, "b", false, false⟩,
           ⟨some "X", .checkbox, "c", true, false⟩, ⟨some "Y", .other, "hello", false, false⟩])
        [⟨some "X", .checkbox, "a", false, false⟩, ⟨some "X", .checkbox, "b", false, false⟩,
         ⟨some "X", .checkbox, "c", false, false⟩, ⟨some "Y", .other, "", false, false⟩]
      = ([⟨some "X", .checkbox, "a", true, false⟩, ⟨some "X", .checkbox, "b", false, false⟩,
          ⟨some "X", .checkbox, "c", false, false⟩, ⟨some "Y", .other, "hello", false, false⟩],
          .returned) := by
  refine ⟨by decide, by rfl, by rfl⟩

theorem firstNamed_no_match (form : List Element) (key : String)
    (h : ∀ element ∈ form, element.name ≠ some key) : firstNamed form key = none := by
  induction form with
  | nil => rfl
  | cons element rest ih =>
    have h1 : element.name ≠ some key := h element (List.mem_cons_self _ _)
    have h2 : ∀ e ∈ rest, e.name ≠ some key := fun e he => h e (List.mem_cons_of_mem _ he)
    simp only [firstNamed, h1, if_false, ih h2, Option.map_none']

theorem restoreAll_no_match (css : String → List Element → Except JSError (Option Nat))
    (data : SavedData) (form : List Element)
    (hplain : ∀ property ∈ data, plainKey property.1 = true)
    (h : ∀ property ∈ data, ∀ element ∈ form, element.name ≠ some property.1) :
    restoreAll css data form = (form, .returned) := by
  induction data with
  | nil => rfl
  | cons property rest ih =>
    obtain ⟨key, value⟩ := property
    have hp : plainKey key = true := hplain (key, value) (List.mem_cons_self _ _)
    have hn : firstNamed form key = none :=
      firstNamed_no_match form key (h (key, value) (List.mem_cons_self _ _))
    simp only [restoreAll, queryByName, hp, if_true, hn]
    exact ih (fun q hq => hplain q (List.mem_cons_of_mem _ hq))
      (fun q hq => h q (List.mem_cons_of_mem _ hq))

theorem mem_insertIndexed (item x : Nat × String × SavedValue)
    (l : List (Nat × String × SavedValue)) (hx : x ∈ insertIndexed item l) :
    x = item ∨ x ∈ l := by
  induction l with
  | nil =>
    simp only [insertIndexed, List.mem_singleton] at hx
    exact Or.inl hx
  | cons first rest ih =>
    unfold insertIndexed at hx
    split at hx
    · rcases List.mem_cons.mp hx with h | h
      · exact Or.inl h
      · exact Or.inr h
    · rcases List.mem_cons.mp hx with h | h
      · exact Or.inr (h ▸ List.mem_cons_self _ _)
      · rcases ih h with h' | h'
        · exact Or.inl h'
        · exact Or.inr (List.mem_cons_of_mem _ h')

theorem mem_foldr_insertIndexed (x : Nat × String × SavedValue)
    (l : List (Nat × String × SavedValue)) (hx : x ∈ l.foldr insertIndexed []) : x ∈ l := by
  induction l with
  | nil => simp at hx
  | cons first rest ih =>
    rw [List.foldr_cons] at hx
    rcases mem_insertIndexed _ _ _ hx with h | h
    · exact h ▸ List.mem_cons_self _ _
    · exact List.mem_cons_of_mem _ (ih h)

theorem mem_orderedProperties (data : SavedData) (property : String × SavedValue)
    (h : property ∈ orderedProperties data) : property ∈ data := by
  unfold orderedProperties at h
  rcases List.mem_append.mp h with h | h
  · obtain ⟨item, hitem, rfl⟩ := List.mem_map.mp h
    have h2 := mem_foldr_insertIndexed item _ hitem
    obtain ⟨q, hq, hqi⟩ := List.mem_filterMap.mp h2
    cases hidx : arrayIndex q.1 with
    | none => rw [hidx] at hqi; simp at hqi
    | some n =>
      rw [hidx] at hqi
      simp only [Option.map_some', Option.some.injEq] at hqi
      rw [← hqi]
      exact hq
  · exact (List.mem_filter.mp h).1

/-- C9 (amended): for every non-empty stored text on which `JSON.parse` throws,
`loadSavedForm` ends by throwing that error, with every form field unchanged;
it returns with the form unchanged when nothing, or the empty text, is stored;
and a saved name without double quote, backslash, line break or null character
that matches no field is skipped, writing nothing and raising no error. -/
theorem loadSavedForm_unparseable (parse : String → Except JSError SavedData)
    (css : String → List Element → Except JSError (Option Nat)) (form : List Element) :
    (∀ text e, text ≠ "" → parse text = .error e →
        loadSavedForm parse css (some text) form = (form, .threw e))
    ∧ loadSavedForm parse css none form = (form, .returned)
    ∧ loadSavedForm parse css (some "") form = (form, .returned)
    ∧ (∀ key value rest, plainKey key = true → (∀ element ∈ form, element.name ≠ some key) →
        restoreAll css ((key, value) :: rest) form = restoreAll css rest form)
    ∧ (∀ text data, text ≠ "" → parse text = .ok data →
        (∀ property ∈ data, plainKey property.1 = true) →
        (∀ property ∈ data, ∀ element ∈ form, element.name ≠ some property.1) →
        loadSavedForm parse css (some text) form = (form, .returned)) := by
  refine ⟨?_, rfl, rfl, ?_, ?_⟩
  · intro text e hne herr
    simp only [loadSavedForm, hne, if_false, herr]
  · intro key value rest hp h
    simp only [restoreAll, queryByName, hp, if_true, firstNamed_no_match form key h]
  · intro text data hne hok hplain h
    simp only [loadSavedForm, hne, if_false, hok]
    exact restoreAll_no_match css _ form
      (fun q hq => hplain q (mem_orderedProperties data q hq))
      (fun q hq => h q (mem_orderedProperties data q hq))

theorem loadSavedForm_unparseable_witness :
    loadSavedForm jsonParse (fun _ _ => .error .syntaxError) (some "\x7b\"Y\":\"hel")
        [⟨some "Y", .other, "", false, false⟩]
      = ([⟨some "Y", .other, "", false, false⟩], .threw .syntaxError)
    ∧ loadSavedForm jsonParse (fun _ _ => .error .syntaxError)
        (some "\x7b\"Z\":\"hello\"\x7d") [⟨some "Y", .other, "", false, false⟩]
      = ([⟨some "Y", .other, "", false, false⟩], .returned) :=
  ⟨(loadSavedForm_unparseable jsonParse (fun _ _ => .error .syntaxError)
      [⟨some "Y", .other, "", false, false⟩]).1
      "\x7b\"Y\":\"hel" .syntaxError (by decide) (by rfl),
   (loadSavedForm_unparseable jsonParse (fun _ _ => .error .syntaxError)
      [⟨some "Y", .other, "", false, false⟩]).2.2.2.2
      "\x7b\"Z\":\"hello\"\x7d" [("Z", .scalar "hello")] (by decide) (by rfl)
      (by decide) (by decide)⟩

/-- C9 (as stated) fails: with a truncated text (an object cut off inside the
value of `Y`) stored, `JSON.parse` throws a `SyntaxError` and `loadSavedForm`
ends by throwing it instead of returning. -/
theorem loadSavedForm_throws_counterexample :
    jsonParse "\x7b\"Y\":\"hel" = .error .syntaxError
    ∧ loadSavedForm jsonParse (fun _ _ => .error .syntaxError) (some "\x7b\"Y\":\"hel")
        [⟨some "Y", .other, "", false, false⟩]
        = ([⟨some "Y", .other, "", false, false⟩], .threw .syntaxError)
    ∧ (loadSavedForm jsonParse (fun _ _ => .error .syntaxError) (some "\x7b\"Y\":\"hel")
        [⟨some "Y", .other, "", false, false⟩]).2 ≠ .returned := by
  refine ⟨by rfl, by rfl, by decide⟩

end CarbonForm
